import Mathlib

/-!
Verification development for the vurakit/agentveil client SDK.

The Python sources `sdk/langchain/vura_langchain.py` and
`sdk/python/privacyguard.py` are shallowly embedded below: pure functions
become Lean functions, HTTP traffic is an explicit oracle argument
`net : Request → Except PyErr HttpResponse`, the process-wide activation
singleton becomes explicit state passing, and Python exceptions become
`Except PyErr`.  JSON values are modelled by the inductive `Json`; the
dynamic (duck-typed) field accesses of the Python code (`in`, `len`,
indexing, `.get`) are modelled by total functions returning `Except PyErr`
with the same error taxonomy Python would produce (KeyError, TypeError,
AttributeError, IndexError).
-/

/-- Error conditions of the embedded Python code: dynamic-typing errors,
HTTP status errors raised by `raise_for_status`, transport failures of the
`requests` library, and file-system errors. -/
inductive PyErr where
  | keyError
  | typeError
  | attributeError
  | indexError
  | httpError (status : Nat)
  | timeout
  | connectionError
  | fileNotFound
  | permissionError
deriving DecidableEq, Repr

/-- JSON values. Objects are association lists with distinct keys (Python
dicts produced by `json.loads`); numbers are rationals. -/
inductive Json where
  | null
  | bool (b : Bool)
  | num (n : ℚ)
  | str (s : String)
  | arr (xs : List Json)
  | obj (kvs : List (String × Json))

/-- Python `k in j` (membership test), with Python's semantics per runtime
type: key membership for dicts, element membership for lists, substring
test for strings, TypeError otherwise. -/
def pyHasKey (j : Json) (k : String) : Except PyErr Bool :=
  match j with
  | .obj kvs => .ok (kvs.lookup k).isSome
  | .arr xs => .ok (xs.any fun x => match x with | .str s => s == k | _ => false)
  | .str s => .ok (s.data.tails.any fun t => k.data.isPrefixOf t)
  | _ => .error .typeError

/-- Python `j[k]` for a string key: dict lookup (KeyError when absent),
TypeError on any non-dict value. -/
def pyGetItem (j : Json) (k : String) : Except PyErr Json :=
  match j with
  | .obj kvs =>
    match kvs.lookup k with
    | some v => .ok v
    | none => .error .keyError
  | _ => .error .typeError

/-- Python `j[i]` for a natural index: list indexing (IndexError when out
of range), one-character string for strings, KeyError for dicts (the int
key is absent), TypeError otherwise. -/
def pyIndex (j : Json) (i : Nat) : Except PyErr Json :=
  match j with
  | .arr xs =>
    match xs.get? i with
    | some v => .ok v
    | none => .error .indexError
  | .str s =>
    match s.data.get? i with
    | some c => .ok (.str (String.mk [c]))
    | none => .error .indexError
  | .obj _ => .error .keyError
  | _ => .error .typeError

/-- Python `len(j)`: defined for strings, lists and dicts, TypeError
otherwise. -/
def pyLen (j : Json) : Except PyErr Nat :=
  match j with
  | .str s => .ok s.length
  | .arr xs => .ok xs.length
  | .obj kvs => .ok kvs.length
  | _ => .error .typeError

/-- Python `j.get(k, d)`: only dicts have a `.get` method (AttributeError
otherwise). -/
def pyGetD (j : Json) (k : String) (d : Json) : Except PyErr Json :=
  match j with
  | .obj kvs => .ok ((kvs.lookup k).getD d)
  | _ => .error .attributeError

/-- Tail of `VuraChatModel._chat` (vura_langchain.py lines 153-155): given
the parsed JSON body `data` of a blocking chat response, return
`data["choices"][0]["message"]["content"]` when `"choices" in data and
len(data["choices"]) > 0`, and the empty string otherwise. Dynamic-typing
errors on ill-shaped bodies propagate, as in Python. -/
def chatDecode (data : Json) : Except PyErr Json :=
  match pyHasKey data "choices" with
  | .error e => .error e
  | .ok has =>
    if has then
      match pyGetItem data "choices" with
      | .error e => .error e
      | .ok cs =>
        match pyLen cs with
        | .error e => .error e
        | .ok n =>
          if 0 < n then
            match pyIndex cs 0 with
            | .error e => .error e
            | .ok c0 =>
              match pyGetItem c0 "message" with
              | .error e => .error e
              | .ok msg => pyGetItem msg "content"
          else .ok (.str "")
    else .ok (.str "")

/-- Body of the per-chunk handling in `VuraChatModel._stream` (lines
184-187): for a parsed chunk, when `"choices" in chunk and
len(chunk["choices"]) > 0`, take `delta = chunk["choices"][0].get("delta",
\x7b\x7d)` and produce `delta["content"]` exactly when `"content" in delta`;
`.ok none` means the line yields no fragment. Dynamic-typing errors (which
Python's `except json.JSONDecodeError` does not catch) surface as
`.error`. -/
def lineFragment (chunk : Json) : Except PyErr (Option Json) :=
  match pyHasKey chunk "choices" with
  | .error e => .error e
  | .ok has =>
    if has then
      match pyGetItem chunk "choices" with
      | .error e => .error e
      | .ok cs =>
        match pyLen cs with
        | .error e => .error e
        | .ok n =>
          if 0 < n then
            match pyIndex cs 0 with
            | .error e => .error e
            | .ok c0 =>
              match pyGetD c0 "delta" (.obj []) with
              | .error e => .error e
              | .ok delta =>
                match pyHasKey delta "content" with
                | .error e => .error e
                | .ok hc =>
                  if hc then
                    match pyGetItem delta "content" with
                    | .error e => .error e
                    | .ok v => .ok (some v)
                  else .ok none
          else .ok none
    else .ok none

/-- ASCII whitespace, the characters removed by Python `str.strip()`. -/
def charIsSpace (c : Char) : Bool :=
  c = ' ' ∨ c = '\t' ∨ c = '\n' ∨ c = '\r' ∨ c = '\x0b' ∨ c = '\x0c'

/-- Python `str.strip()`: remove leading and trailing whitespace. -/
def pyStrip (s : String) : String :=
  String.mk ((s.data.dropWhile charIsSpace).reverse.dropWhile charIsSpace).reverse

/-- Python `s.startswith(pre)`. -/
def pyStartsWith (s pre : String) : Bool :=
  pre.data.isPrefixOf s.data

/-- Outcome of consuming a streamed body: the fragments yielded, and
whether the generator finished normally (`done`: hit `[DONE]` or exhausted
the lines) or aborted with an uncaught exception (`err`). -/
inductive StreamOutcome where
  | done (frags : List Json)
  | err (frags : List Json) (e : PyErr)

/-- Prepend one yielded fragment to a stream outcome. -/
def consOut (f : Json) : StreamOutcome → StreamOutcome
  | .done fs => .done (f :: fs)
  | .err fs e => .err (f :: fs) e

/-- Loop of `VuraChatModel._stream` (lines 177-189) over the response
lines.  `parse` stands for `json.loads`, returning `none` exactly when
Python would raise `json.JSONDecodeError` (the only exception the loop
catches).  A line is handled only if it is non-empty and starts with
`"data: "`; the payload is the line minus its first six characters,
stripped; payload `"[DONE]"` ends the stream at once. -/
def streamDecode (parse : String → Option Json) : List String → StreamOutcome
  | [] => .done []
  | line :: rest =>
    if line ≠ "" ∧ pyStartsWith line "data: " then
      let data := pyStrip (line.drop 6)
      if data = "[DONE]" then .done []
      else
        match parse data with
        | none => streamDecode parse rest
        | some chunk =>
          match lineFragment chunk with
          | .error e => .err [] e
          | .ok none => streamDecode parse rest
          | .ok (some v) => consOut v (streamDecode parse rest)
    else streamDecode parse rest

/-- Finite table standing in for `json.loads` in concrete scenarios: the
listed payload strings parse to the listed values, everything else fails
to parse. -/
def parseTable (tbl : List (String × Json)) : String → Option Json :=
  fun s => tbl.lookup s

/-- Configuration of a `VuraChatModel` instance (constructor, lines
99-119), after the `or os.getenv(...)` defaulting has resolved: string
fields hold `""` when unset, `provider` is `None` or a string as in the
source. -/
structure ChatConfig where
  proxy_url : String
  api_key : String
  provider_api_key : String
  model : String
  provider : Option String
  session_id : String
  role : String
  temperature : ℚ
  max_tokens : ℤ

/-- One chat message `\x7b"role": ..., "content": ...\x7d`. -/
structure Message where
  role : String
  content : String

/-- Per-call keyword arguments read by `kwargs.get(..., default)` in
`_chat` and `_stream`: `none` means the keyword was not passed. -/
structure Kwargs where
  model : Option String
  temperature : Option ℚ
  max_tokens : Option ℤ

/-- `VuraChatModel._build_headers` (lines 191-206): `Content-Type` always;
`Authorization: Bearer <key>` preferring `api_key` over
`provider_api_key` (Python truthiness: the empty string counts as unset);
`X-Session-ID`, `X-User-Role`, `X-Vura-Provider` each under its truthiness
guard. -/
def build_headers (c : ChatConfig) : List (String × String) :=
  let h0 := [("Content-Type", "application/json")]
  let h1 :=
    if c.api_key ≠ "" then h0 ++ [("Authorization", "Bearer " ++ c.api_key)]
    else if c.provider_api_key ≠ "" then
      h0 ++ [("Authorization", "Bearer " ++ c.provider_api_key)]
    else h0
  let h2 := if c.session_id ≠ "" then h1 ++ [("X-Session-ID", c.session_id)] else h1
  let h3 := if c.role ≠ "" then h2 ++ [("X-User-Role", c.role)] else h2
  match c.provider with
  | some p => if p ≠ "" then h3 ++ [("X-Vura-Provider", p)] else h3
  | none => h3

/-- An outbound `requests.post` call: URL, JSON payload (the `json=`
argument as an association list mirroring the Python dict literal),
headers, the `timeout=` argument (`none` when the call passes no timeout),
and the `stream=` argument. -/
structure Request where
  url : String
  payload : List (String × Json)
  headers : List (String × String)
  timeout : Option Nat
  stream : Bool

/-- An HTTP response: status code and parsed JSON body. -/
structure HttpResponse where
  status : Nat
  body : Json

/-- `raise_for_status` of the `requests` library raises `HTTPError`
exactly for 4xx and 5xx status codes. -/
def raiseForStatus (r : HttpResponse) : Except PyErr Unit :=
  if 400 ≤ r.status ∧ r.status < 600 then .error (.httpError r.status) else .ok ()

/-- JSON encoding of a message list, as serialized into the payload. -/
def messagesJson (messages : List Message) : Json :=
  .arr (messages.map fun m => .obj [("role", .str m.role), ("content", .str m.content)])

/-- The request issued by `VuraChatModel._chat` (lines 135-149): payload
keys `model`, `messages`, `temperature`, `max_tokens` with per-call
keyword overrides over client defaults, POSTed to
`<proxy_url>/v1/chat/completions` with `_build_headers()` and a 60-second
timeout.  The dict literal has no `stream` key. -/
def chatRequest (c : ChatConfig) (messages : List Message) (kw : Kwargs) : Request :=
  { url := c.proxy_url ++ "/v1/chat/completions"
    payload := [
      ("model", .str (kw.model.getD c.model)),
      ("messages", messagesJson messages),
      ("temperature", .num (kw.temperature.getD c.temperature)),
      ("max_tokens", .num ((kw.max_tokens.getD c.max_tokens : ℤ) : ℚ))]
    headers := build_headers c
    timeout := some 60
    stream := false }

/-- `VuraChatModel._chat` (lines 135-155): issue the request, raise on
4xx/5xx, then decode `choices[0].message.content` from the body.
Transport failures from the network oracle propagate (the Python code has
no `try` here). -/
def vura_chat (c : ChatConfig) (messages : List Message) (kw : Kwargs)
    (net : Request → Except PyErr HttpResponse) : Except PyErr Json :=
  match net (chatRequest c messages kw) with
  | .error e => .error e
  | .ok resp =>
    match raiseForStatus resp with
    | .error e => .error e
    | .ok _ => chatDecode resp.body

/-- `VuraChatModel.invoke` (lines 121-124): wrap the input in a single
user message and delegate to `_chat`. -/
def invoke (c : ChatConfig) (input_text : String) (kw : Kwargs)
    (net : Request → Except PyErr HttpResponse) : Except PyErr Json :=
  vura_chat c [{ role := "user", content := input_text }] kw net

/-- `VuraChatModel.chat` (lines 126-128): delegate to `_chat`. -/
def chat (c : ChatConfig) (messages : List Message) (kw : Kwargs)
    (net : Request → Except PyErr HttpResponse) : Except PyErr Json :=
  vura_chat c messages kw net

/-- Configuration of a `VuraAuditor` (lines 212-218), after env
defaulting: `""` means no API key. -/
structure AuditorConfig where
  proxy_url : String
  api_key : String

/-- Headers built inside `VuraAuditor.audit` (lines 222-224). -/
def auditHeaders (a : AuditorConfig) : List (String × String) :=
  if a.api_key ≠ "" then
    [("Content-Type", "application/json"), ("Authorization", "Bearer " ++ a.api_key)]
  else [("Content-Type", "application/json")]

/-- The request issued by `VuraAuditor.audit` (lines 226-231):
`\x7b"content": content\x7d` POSTed to `<proxy_url>/audit` with a
30-second timeout. -/
def auditRequest (a : AuditorConfig) (content : String) : Request :=
  { url := a.proxy_url ++ "/audit"
    payload := [("content", .str content)]
    headers := auditHeaders a
    timeout := some 30
    stream := false }

/-- `VuraAuditor.audit` (lines 220-233): POST, `raise_for_status`, return
the parsed body. -/
def audit (a : AuditorConfig) (net : Request → Except PyErr HttpResponse)
    (content : String) : Except PyErr Json :=
  match net (auditRequest a content) with
  | .error e => .error e
  | .ok resp =>
    match raiseForStatus resp with
    | .error e => .error e
    | .ok _ => .ok resp.body

/-- `VuraAuditor.audit_file` (lines 235-239): read the file (the
filesystem oracle `fs` returns the content or the OS error, which the
Python code neither catches nor remaps), then delegate to `audit`. -/
def audit_file (a : AuditorConfig) (net : Request → Except PyErr HttpResponse)
    (fs : String → Except PyErr String) (path : String) : Except PyErr Json :=
  match fs path with
  | .error e => .error e
  | .ok content => audit a net content

/-- Python `str.rstrip("/")`: drop trailing slashes. -/
def rstripSlash (s : String) : String :=
  String.mk (s.data.reverse.dropWhile (fun c => c = '/')).reverse

/-- The request issued by `audit_skill` in privacyguard.py (lines 86-92):
`\x7b"content": content\x7d` POSTed to `<proxy_url.rstrip('/')>/audit`
with no explicit headers and, notably, no `timeout=` argument. -/
def audit_skillRequest (proxy_url : String) (content : String) : Request :=
  { url := rstripSlash proxy_url ++ "/audit"
    payload := [("content", .str content)]
    headers := []
    timeout := none
    stream := false }

/-- `audit_skill` in privacyguard.py (lines 86-92): POST and return
`resp.json()` — there is no `raise_for_status` and no status check, so
any response body is returned regardless of status; only transport
failures propagate. -/
def audit_skill (proxy_url : String) (net : Request → Except PyErr HttpResponse)
    (content : String) : Except PyErr Json :=
  match net (audit_skillRequest proxy_url content) with
  | .error e => .error e
  | .ok resp => .ok resp.body

/-- One detected PII entity, per the `/scan` response contract
`\x7btype, value, position\x7d`. -/
structure Entity where
  type : String
  value : String
  position : Nat
deriving DecidableEq, Repr

/-- Parsed body of a `/scan` response, per the HTTP contract
`\x7bfound: bool, entities: [...]\x7d`. -/
structure ScanResult where
  found : Bool
  entities : List Entity
deriving DecidableEq, Repr

/-- A `/scan` HTTP response: status code, and the parsed body (`none`
when the body is not valid JSON, in which case `resp.json()` raises a
`RequestException` subclass that `_scan` catches). -/
structure ScanHttp where
  status : Nat
  body : Option ScanResult

/-- Configuration of a `VuraCallbackHandler` (lines 28-39), after env
defaulting. -/
structure HandlerConfig where
  proxy_url : String
  api_key : String
  session_id : String
  block_on_pii : Bool

/-- Headers built inside `VuraCallbackHandler._scan` (lines 73-77). -/
def scanHeaders (h : HandlerConfig) : List (String × String) :=
  let h0 := [("Content-Type", "application/json")]
  let h1 := if h.api_key ≠ "" then h0 ++ [("Authorization", "Bearer " ++ h.api_key)] else h0
  if h.session_id ≠ "" then h1 ++ [("X-Session-ID", h.session_id)] else h1

/-- The request issued by `VuraCallbackHandler._scan` (lines 79-84):
`\x7b"text": text\x7d` POSTed to `<proxy_url>/scan` with a 10-second
timeout. -/
def scanRequest (h : HandlerConfig) (text : String) : Request :=
  { url := h.proxy_url ++ "/scan"
    payload := [("text", .str text)]
    headers := scanHeaders h
    timeout := some 10
    stream := false }

/-- `VuraCallbackHandler._scan` (lines 71-89): return the parsed body on
status 200, `None` otherwise; every `RequestException` (timeout,
connection error, unparseable 200 body) is caught and yields `None`.  The
function is total: it never propagates an error. -/
def vura_scan (h : HandlerConfig) (net : Request → Except PyErr ScanHttp)
    (text : String) : Option ScanResult :=
  match net (scanRequest h text) with
  | .ok resp => if resp.status = 200 then resp.body else none
  | .error _ => none

/-- `VuraCallbackHandler.on_llm_start` (lines 41-50), with the network
already abstracted into a scan oracle `scan : String → Option ScanResult`
(the value of `self._scan` on each prompt).  Returns the final findings
list (`self._findings` after the call, including entities appended before
any raise) together with `some n` when `PIIDetectedError` with entity
count `n` was raised, `none` when the method returned normally. -/
def on_llm_start (h : HandlerConfig) (findings : List Entity)
    (prompts : List String) (scan : String → Option ScanResult) :
    List Entity × Option Nat :=
  match prompts with
  | [] => (findings, none)
  | p :: rest =>
    match scan p with
    | some r =>
      if r.found then
        let fs := findings ++ r.entities
        if h.block_on_pii then (fs, some r.entities.length)
        else on_llm_start h fs rest scan
      else on_llm_start h findings rest scan
    | none => on_llm_start h findings rest scan

/-- `VuraCallbackHandler.on_llm_end` (lines 52-59) over the generation
texts of the response: scan each one and append any entities found. -/
def on_llm_end_scan (findings : List Entity) (gens : List String)
    (scan : String → Option ScanResult) : List Entity :=
  match gens with
  | [] => findings
  | g :: rest =>
    match scan g with
    | some r =>
      if r.found then on_llm_end_scan (findings ++ r.entities) rest scan
      else on_llm_end_scan findings rest scan
    | none => on_llm_end_scan findings rest scan

/-- Outcome of one Interception Sequencer run: the findings collector
after the run, `blocked = some n` when `PIIDetectedError` carrying entity
count `n` was raised (a condition structurally distinct from the
transport errors in `PyErr`), the wrapped call's result when it ran, and
whether the wrapped call was invoked at all. -/
structure SeqOutcome where
  findings : List Entity
  blocked : Option Nat
  result : Option String
  callInvoked : Bool
deriving DecidableEq, Repr

/-- Modelled from the spec: the Interception Sequencer of section 4.6.
The LangChain framework that drives the callbacks is not part of this
repository; per the spec's state machine, `on_llm_start` runs first, a
raise from it reaches `BLOCKED` and the wrapped call is never issued;
otherwise the wrapped call runs (producing `callResult`) and
`on_llm_end` scans its generation. -/
def sequencer (h : HandlerConfig) (findings : List Entity) (prompts : List String)
    (scan : String → Option ScanResult) (callResult : String) : SeqOutcome :=
  match on_llm_start h findings prompts scan with
  | (fs, some n) => { findings := fs, blocked := some n, result := none, callInvoked := false }
  | (fs, none) =>
    let fs2 := on_llm_end_scan fs [callResult] scan
    { findings := fs2, blocked := none, result := some callResult, callInvoked := true }

/-- Python `x or y` for `x : Optional[str]`: `y` when `x` is `None` or the
empty string (both falsy). -/
def pyOr (a : Option String) (b : String) : String :=
  match a with
  | some s => if s ≠ "" then s else b
  | none => b

/-- The slice of `os.environ` that privacyguard.py reads or writes. -/
structure Env where
  openai_base_url : Option String
  openai_api_key : Option String
deriving DecidableEq, Repr

/-- The `_CONFIG` dict built by `activate` (privacyguard.py lines 40-45). -/
structure AVConfig where
  proxy_url : String
  api_key : String
  role : String
  session_id : String
deriving DecidableEq, Repr

/-- The module-level state of privacyguard.py: `_ACTIVE`, `_CONFIG`
(`none` before the first `activate`), and the environment. -/
structure AVState where
  active : Bool
  config : Option AVConfig
  env : Env
deriving DecidableEq, Repr

/-- `activate` (privacyguard.py lines 28-51), with the global state passed
explicitly and the fresh `str(uuid.uuid4())` value passed as `uuid`:
builds `_CONFIG` (rstripping the proxy URL, defaulting `api_key` from
`os.environ.get("OPENAI_API_KEY", "")`, defaulting `session_id` to the
uuid), sets `_ACTIVE`, and sets `os.environ["OPENAI_BASE_URL"]` to
`<proxy_url>/v1`. -/
def activate (proxy_url : String) (api_key : Option String) (role : String)
    (session_id : Option String) (uuid : String) (st : AVState) : AVState :=
  let cfg : AVConfig :=
    { proxy_url := rstripSlash proxy_url
      api_key := pyOr api_key (st.env.openai_api_key.getD "")
      role := role
      session_id := pyOr session_id uuid }
  { active := true
    config := some cfg
    env := { st.env with openai_base_url := some (cfg.proxy_url ++ "/v1") } }

/-- `deactivate` (lines 54-58): clear `_ACTIVE` and pop
`OPENAI_BASE_URL`; `_CONFIG` is left as is. -/
def deactivate (st : AVState) : AVState :=
  { st with active := false, env := { st.env with openai_base_url := none } }

/-- `is_active` (lines 61-62). -/
def is_active (st : AVState) : Bool :=
  st.active

/-! Concrete payloads, configurations and oracles used to instantiate the
theorems on the spec's scenarios. -/

/-- Payload of the content frame of spec Scenario C. -/
def payloadHi : String := "\x7b\"choices\":[\x7b\"delta\":\x7b\"content\":\"hi\"\x7d\x7d]\x7d"

/-- The value `json.loads` produces for `payloadHi`. -/
def chunkHi : Json := .obj [("choices", .arr [.obj [("delta", .obj [("content", .str "hi")])]])]

/-- A role-only delta frame payload. -/
def payloadRole : String := "\x7b\"choices\":[\x7b\"delta\":\x7b\"role\":\"assistant\"\x7d\x7d]\x7d"

/-- The value `json.loads` produces for `payloadRole`. -/
def chunkRole : Json :=
  .obj [("choices", .arr [.obj [("delta", .obj [("role", .str "assistant")])]])]

/-- Parse oracle knowing the Scenario C frames. -/
def parseHiRole : String → Option Json :=
  parseTable [(payloadHi, chunkHi), (payloadRole, chunkRole)]

/-- A frame whose payload parses but whose `choices[0]` is a number, not
an object. -/
def chunkBad : Json := .obj [("choices", .arr [.num 5])]

/-- Parse oracle knowing only the ill-shaped frame. -/
def parseBad : String → Option Json := parseTable [("\x7b\"choices\":[5]\x7d", chunkBad)]

/-- Two well-formed content frames, `"a"` and `"b"`. -/
def payloadA : String := "\x7b\"choices\":[\x7b\"delta\":\x7b\"content\":\"a\"\x7d\x7d]\x7d"

/-- The value `json.loads` produces for `payloadA`. -/
def chunkA : Json := .obj [("choices", .arr [.obj [("delta", .obj [("content", .str "a")])]])]

/-- Second well-formed content frame. -/
def payloadB : String := "\x7b\"choices\":[\x7b\"delta\":\x7b\"content\":\"b\"\x7d\x7d]\x7d"

/-- The value `json.loads` produces for `payloadB`. -/
def chunkB : Json := .obj [("choices", .arr [.obj [("delta", .obj [("content", .str "b")])]])]

/-- Parse oracle for the two valid frames; everything else (such as a
heartbeat line) fails to parse. -/
def parseAB : String → Option Json := parseTable [(payloadA, chunkA), (payloadB, chunkB)]

/-- A sample chat model configuration. -/
def cEx : ChatConfig :=
  { proxy_url := "http://localhost:8080", api_key := "vura-key", provider_api_key := ""
    model := "gpt-4", provider := none, session_id := "langchain", role := "admin"
    temperature := 7/10, max_tokens := 4096 }

/-- No per-call keyword overrides. -/
def kwNone : Kwargs := { model := none, temperature := none, max_tokens := none }

/-- A network returning HTTP 304 with an empty JSON object body. -/
def net304 : Request → Except PyErr HttpResponse :=
  fun _ => .ok { status := 304, body := .obj [] }

/-- A network returning HTTP 500 with a JSON error body. -/
def net500 : Request → Except PyErr HttpResponse :=
  fun _ => .ok { status := 500, body := .obj [("detail", .str "boom")] }

/-- A network on which every request fails with a connection error. -/
def netConnErr : Request → Except PyErr HttpResponse :=
  fun _ => .error .connectionError

/-- A scan endpoint on which every request times out. -/
def netScanTimeout : Request → Except PyErr ScanHttp :=
  fun _ => .error .timeout

/-- A sample callback handler configuration that does not block. -/
def hEx : HandlerConfig :=
  { proxy_url := "http://localhost:8080", api_key := "", session_id := "langchain"
    block_on_pii := false }

/-- A sample callback handler configuration with `block_on_pii=True`. -/
def hBlock : HandlerConfig :=
  { proxy_url := "http://localhost:8080", api_key := "", session_id := "langchain"
    block_on_pii := true }

/-- A sample detected entity. -/
def entEx : Entity := { type := "cccd", value := "012345678901", position := 11 }

/-- A scan oracle that finds `entEx` in every text. -/
def scanFound : String → Option ScanResult :=
  fun _ => some { found := true, entities := [entEx] }

/-- A sample auditor configuration. -/
def aEx : AuditorConfig := { proxy_url := "http://localhost:8080", api_key := "" }

/-- A filesystem on which every path is missing. -/
def fsMissing : String → Except PyErr String :=
  fun _ => .error .fileNotFound

/-- A sample starting activation state: inactive, `OPENAI_API_KEY` set in
the ambient environment. -/
def stEx : AVState :=
  { active := false, config := none
    env := { openai_base_url := none, openai_api_key := some "sk-env" } }

/-! Helper lemmas. -/

/-- When every scan returns no result, `on_llm_start` changes nothing and
does not raise. -/
theorem on_llm_start_scan_none (h : HandlerConfig) (findings : List Entity)
    (prompts : List String) (scan : String → Option ScanResult)
    (hs : ∀ t, scan t = none) :
    on_llm_start h findings prompts scan = (findings, none) := by
  induction prompts with
  | nil => rfl
  | cons p rest ih => simp only [on_llm_start, hs p]; exact ih

/-- When every scan returns no result, `on_llm_end` changes nothing. -/
theorem on_llm_end_scan_none (findings : List Entity) (gens : List String)
    (scan : String → Option ScanResult) (hs : ∀ t, scan t = none) :
    on_llm_end_scan findings gens scan = findings := by
  induction gens with
  | nil => rfl
  | cons g rest ih => simp only [on_llm_end_scan, hs g]; exact ih

/-- With blocking enabled, as soon as some prompt's scan reports
`found=true`, `on_llm_start` raises `PIIDetectedError` carrying the entity
count of the first such scan, with its entities already appended. -/
theorem on_llm_start_blocks (h : HandlerConfig) (scan : String → Option ScanResult)
    (hb : h.block_on_pii = true) (prompts : List String) :
    ∀ findings, (∃ p ∈ prompts, ∃ r, scan p = some r ∧ r.found = true) →
      ∃ p r pre, p ∈ prompts ∧ scan p = some r ∧ r.found = true ∧
        on_llm_start h findings prompts scan = (pre ++ r.entities, some r.entities.length) := by
  induction prompts with
  | nil => intro findings hex; simp at hex
  | cons q rest ih =>
    intro findings hex
    cases hq : scan q with
    | some rq =>
      by_cases hfq : rq.found = true
      · refine ⟨q, rq, findings, List.mem_cons_self q rest, hq, hfq, ?_⟩
        simp only [on_llm_start, hq, hfq, hb, if_true]
      · have hex' : ∃ p ∈ rest, ∃ r, scan p = some r ∧ r.found = true := by
          obtain ⟨p, hp, r, hr, hf⟩ := hex
          rcases List.mem_cons.mp hp with h1 | h1
          · subst h1; rw [hq] at hr; cases hr; exact absurd hf hfq
          · exact ⟨p, h1, r, hr, hf⟩
        obtain ⟨p', r', pre', hm, hs', hf', heq⟩ := ih findings hex'
        refine ⟨p', r', pre', List.mem_cons_of_mem q hm, hs', hf', ?_⟩
        simp only [on_llm_start, hq]
        rw [if_neg hfq]
        exact heq
    | none =>
      have hex' : ∃ p ∈ rest, ∃ r, scan p = some r ∧ r.found = true := by
        obtain ⟨p, hp, r, hr, hf⟩ := hex
        rcases List.mem_cons.mp hp with h1 | h1
        · subst h1; rw [hq] at hr; cases hr
        · exact ⟨p, h1, r, hr, hf⟩
      obtain ⟨p', r', pre', hm, hs', hf', heq⟩ := ih findings hex'
      refine ⟨p', r', pre', List.mem_cons_of_mem q hm, hs', hf', ?_⟩
      simp only [on_llm_start, hq]
      exact heq

/-! Claim theorems. -/

/-- C10: `VuraChatModel.invoke(input_text, **kwargs)` returns exactly what
`VuraChatModel.chat([one user message], **kwargs)` returns: both delegate
to the same `_chat` with the single-user-message list. -/
theorem invoke_eq_chat (c : ChatConfig) (input_text : String) (kw : Kwargs)
    (net : Request → Except PyErr HttpResponse) :
    invoke c input_text kw net = chat c [{ role := "user", content := input_text }] kw net :=
  rfl

/-- C9: after `activate(proxy_url="http://localhost:8080", role="admin")`,
`is_active()` is true and `OPENAI_BASE_URL` equals
`http://localhost:8080/v1`; `activate` auto-generates `session_id` from
the fresh uuid and defaults `api_key` from the ambient `OPENAI_API_KEY`
when omitted, so the resolved session id is non-empty whenever the uuid
is; `deactivate` clears the active flag and removes the variable; and a
later `activate` overwrites the effect of any earlier one. -/
theorem activate_deactivate_contract (st : AVState) (u pu r : String)
    (ak : Option String) (sid : Option String) (hu : u ≠ "") :
    (is_active (activate "http://localhost:8080" none "admin" none u st) = true
      ∧ (activate "http://localhost:8080" none "admin" none u st).env.openai_base_url
          = some "http://localhost:8080/v1")
    ∧ (activate pu ak r none u st).config = some
        { proxy_url := rstripSlash pu
          api_key := pyOr ak (st.env.openai_api_key.getD "")
          role := r
          session_id := u }
    ∧ (∀ cfg, (activate pu ak r sid u st).config = some cfg → cfg.session_id ≠ "")
    ∧ (is_active (deactivate st) = false ∧ (deactivate st).env.openai_base_url = none)
    ∧ (∀ pu2 ak2 r2 sid2 u2,
        activate pu2 ak2 r2 sid2 u2 (activate pu ak r sid u st)
          = activate pu2 ak2 r2 sid2 u2 st) := by
  refine ⟨⟨rfl, rfl⟩, rfl, ?_, ⟨rfl, rfl⟩, fun _ _ _ _ _ => rfl⟩
  intro cfg hcfg
  have hc := Option.some.inj hcfg
  rw [← hc]
  show pyOr sid u ≠ ""
  cases sid with
  | none => simpa [pyOr] using hu
  | some s => by_cases hs : s = "" <;> simp [pyOr, hs, hu]

/-- C9 witness: Scenario A at a concrete state and uuid. -/
theorem activate_deactivate_contract_witness :
    is_active (activate "http://localhost:8080" none "admin" none "4f9a-uuid" stEx) = true
    ∧ (activate "http://localhost:8080" none "admin" none "4f9a-uuid" stEx).env.openai_base_url
        = some "http://localhost:8080/v1" :=
  (activate_deactivate_contract stEx "4f9a-uuid" "p" "viewer" none none (by decide)).1


set_option maxHeartbeats 1000000 in
/-- C4: `_build_headers` always contains `Content-Type: application/json`;
contains `Authorization: Bearer <key>` iff some key resolved, preferring
the explicit proxy key over the provider key; contains `X-Session-ID` iff
the session id is non-empty; `X-User-Role` iff the role is set; and
`X-Vura-Provider` iff a provider hint is set.  It is a pure function of
the configuration (a Lean function by construction). -/
theorem build_headers_contract (c : ChatConfig) :
    ("Content-Type", "application/json") ∈ build_headers c
    ∧ ((∃ v, ("Authorization", v) ∈ build_headers c)
        ↔ (c.api_key ≠ "" ∨ c.provider_api_key ≠ ""))
    ∧ (c.api_key ≠ "" → ("Authorization", "Bearer " ++ c.api_key) ∈ build_headers c)
    ∧ (c.api_key = "" → c.provider_api_key ≠ "" →
        ("Authorization", "Bearer " ++ c.provider_api_key) ∈ build_headers c)
    ∧ (("X-Session-ID", c.session_id) ∈ build_headers c ↔ c.session_id ≠ "")
    ∧ (("X-User-Role", c.role) ∈ build_headers c ↔ c.role ≠ "")
    ∧ ((∃ v, ("X-Vura-Provider", v) ∈ build_headers c)
        ↔ (∃ p, c.provider = some p ∧ p ≠ "")) := by
  obtain ⟨pu, ak, pak, m, prov, sid, role, t, mt⟩ := c
  rcases prov with _ | p <;>
    simp only [build_headers] <;> split_ifs <;> simp_all

/-- C4 witness: on the sample configuration (whose proxy key is set), the
headers contain `Content-Type` and a resolved `Authorization`. -/
theorem build_headers_contract_witness :
    ("Content-Type", "application/json") ∈ build_headers cEx
    ∧ (∃ v, ("Authorization", v) ∈ build_headers cEx) :=
  ⟨(build_headers_contract cEx).1,
   ((build_headers_contract cEx).2.1).mpr (Or.inl (by decide))⟩

/-- C3: `_scan` returns the parsed scan result exactly when the POST to
`/scan` comes back with status 200 and a parseable body, and returns no
result (`none`) on any transport failure or non-200 status; it is a total
function into `Option`, so it never propagates an exception.  When every
scan times out, a sequencer-wrapped chat call still completes normally
with the wrapped call's result. -/
theorem scan_contract (h : HandlerConfig) (net : Request → Except PyErr ScanHttp)
    (text : String) :
    (∀ r, vura_scan h net text = some r ↔
      ∃ resp, net (scanRequest h text) = .ok resp ∧ resp.status = 200 ∧ resp.body = some r)
    ∧ (∀ e, net (scanRequest h text) = .error e → vura_scan h net text = none)
    ∧ (∀ resp, net (scanRequest h text) = .ok resp → resp.status ≠ 200 →
        vura_scan h net text = none)
    ∧ ((∀ req, net req = .error .timeout) →
        ∀ findings prompts callResult,
          sequencer h findings prompts (vura_scan h net) callResult
            = { findings := findings, blocked := none, result := some callResult,
                callInvoked := true }) := by
  refine ⟨?_, ?_, ?_, ?_⟩
  · intro r
    constructor
    · intro hr
      cases hnet : net (scanRequest h text) with
      | error e => simp [vura_scan, hnet] at hr
      | ok resp =>
        simp only [vura_scan, hnet] at hr
        by_cases hst : resp.status = 200
        · rw [if_pos hst] at hr; exact ⟨resp, rfl, hst, hr⟩
        · rw [if_neg hst] at hr; simp at hr
    · rintro ⟨resp, hnet, hst, hbody⟩
      simp only [vura_scan, hnet, if_pos hst]
      exact hbody
  · intro e hnet
    simp only [vura_scan, hnet]
  · intro resp hnet hst
    simp only [vura_scan, hnet, if_neg hst]
  · intro hto findings prompts callResult
    have hnone : ∀ t, vura_scan h net t = none := by
      intro t; simp only [vura_scan, hto (scanRequest h t)]
    simp only [sequencer, on_llm_start_scan_none h findings prompts _ hnone,
      on_llm_end_scan_none _ _ _ hnone]

/-- C3 witness: with a timing-out scan endpoint, `_scan` returns `none`
and a wrapped chat call still completes normally. -/
theorem scan_contract_witness :
    vura_scan hEx netScanTimeout "my CCCD is 012345678901" = none
    ∧ sequencer hEx [] ["my CCCD is 012345678901"] (vura_scan hEx netScanTimeout) "ok"
        = { findings := [], blocked := none, result := some "ok", callInvoked := true } :=
  ⟨(scan_contract hEx netScanTimeout "my CCCD is 012345678901").2.1 .timeout rfl,
   (scan_contract hEx netScanTimeout "my CCCD is 012345678901").2.2.2 (fun _ => rfl)
     [] ["my CCCD is 012345678901"] "ok"⟩

/-- C2: with `block_on_pii=True` and some prompt whose scan result has
`found=true` and a non-empty entity list, the sequencer never invokes the
wrapped call and raises `PIIDetectedError` — a condition structurally
distinct from the transport errors — carrying the entity count of the
blocking scan, whose entities were appended to the findings collector
before the refusal was signaled. -/
theorem block_on_pii_contract (h : HandlerConfig) (findings : List Entity)
    (prompts : List String) (scan : String → Option ScanResult) (callResult : String)
    (hb : h.block_on_pii = true)
    (hex : ∃ p ∈ prompts, ∃ r, scan p = some r ∧ r.found = true ∧ r.entities ≠ []) :
    (sequencer h findings prompts scan callResult).callInvoked = false
    ∧ (sequencer h findings prompts scan callResult).result = none
    ∧ ∃ p r, p ∈ prompts ∧ scan p = some r ∧ r.found = true
        ∧ (sequencer h findings prompts scan callResult).blocked = some r.entities.length
        ∧ ∃ pre, (sequencer h findings prompts scan callResult).findings = pre ++ r.entities := by
  have hex' : ∃ p ∈ prompts, ∃ r, scan p = some r ∧ r.found = true := by
    obtain ⟨p, hp, r, hr, hf, _⟩ := hex
    exact ⟨p, hp, r, hr, hf⟩
  obtain ⟨p, r, pre, hm, hs', hf, heq⟩ := on_llm_start_blocks h scan hb prompts findings hex'
  refine ⟨?_, ?_, p, r, hm, hs', hf, ?_, pre, ?_⟩ <;>
    simp only [sequencer, heq]

/-- C2 witness: one prompt whose scan finds one entity, with blocking
enabled: the wrapped call is not invoked and no result is produced. -/
theorem block_on_pii_contract_witness :
    (sequencer hBlock [] ["my CCCD is 012345678901"] scanFound "ok").callInvoked = false
    ∧ (sequencer hBlock [] ["my CCCD is 012345678901"] scanFound "ok").result = none :=
  ⟨(block_on_pii_contract hBlock [] ["my CCCD is 012345678901"] scanFound "ok" rfl
      ⟨"my CCCD is 012345678901", by simp, { found := true, entities := [entEx] },
        rfl, rfl, by simp⟩).1,
   (block_on_pii_contract hBlock [] ["my CCCD is 012345678901"] scanFound "ok" rfl
      ⟨"my CCCD is 012345678901", by simp, { found := true, entities := [entEx] },
        rfl, rfl, by simp⟩).2.1⟩

/-- C1: the streaming decoder acts only on non-empty lines starting with
`data: `; a stripped payload equal to `[DONE]` terminates the stream at
once with no further fragments and no error; a parsed chunk contributes
`choices[0].delta.content` as the next fragment exactly when present
(`lineFragment` returning `.ok none`, e.g. a role-only delta, yields no
fragment, not an empty-string one); and the Scenario C body yields
exactly the one fragment `"hi"` while the role-only variant yields
none. -/
theorem stream_decoder_contract (parse : String → Option Json) (line : String)
    (rest : List String) :
    ((line = "" ∨ pyStartsWith line "data: " = false) →
      streamDecode parse (line :: rest) = streamDecode parse rest)
    ∧ (line ≠ "" → pyStartsWith line "data: " = true →
        pyStrip (line.drop 6) = "[DONE]" →
        streamDecode parse (line :: rest) = .done [])
    ∧ (∀ chunk v, line ≠ "" → pyStartsWith line "data: " = true →
        pyStrip (line.drop 6) ≠ "[DONE]" → parse (pyStrip (line.drop 6)) = some chunk →
        lineFragment chunk = .ok (some v) →
        streamDecode parse (line :: rest) = consOut v (streamDecode parse rest))
    ∧ (∀ chunk, line ≠ "" → pyStartsWith line "data: " = true →
        pyStrip (line.drop 6) ≠ "[DONE]" → parse (pyStrip (line.drop 6)) = some chunk →
        lineFragment chunk = .ok none →
        streamDecode parse (line :: rest) = streamDecode parse rest)
    ∧ streamDecode parseHiRole ["data: " ++ payloadHi, "data: [DONE]"] = .done [.str "hi"]
    ∧ streamDecode parseHiRole ["data: " ++ payloadRole, "data: [DONE]"] = .done [] := by
  refine ⟨?_, ?_, ?_, ?_, rfl, rfl⟩
  · intro hcase
    have hneg : ¬(line ≠ "" ∧ pyStartsWith line "data: " = true) := by
      rcases hcase with hc | hc
      · exact fun hand => hand.1 hc
      · exact fun hand => by rw [hc] at hand; exact Bool.false_ne_true hand.2
    simp only [streamDecode, if_neg hneg]
  · intro hne hsw hdone
    simp only [streamDecode, if_pos (And.intro hne hsw), hdone, if_pos rfl, if_true]
  · intro chunk v hne hsw hdone hparse hfrag
    simp only [streamDecode, if_pos (And.intro hne hsw), if_neg hdone, hparse, hfrag]
  · intro chunk hne hsw hdone hparse hfrag
    simp only [streamDecode, if_pos (And.intro hne hsw), if_neg hdone, hparse, hfrag]

/-- C1 witness: the `[DONE]` line at the head of a stream terminates it
with no fragments. -/
theorem stream_decoder_contract_witness :
    streamDecode parseHiRole ["data: [DONE]"] = .done [] :=
  (stream_decoder_contract parseHiRole "data: [DONE]" []).2.1
    (by decide) (by decide) (by decide)

/-- C5 (amended): a `data: ` line whose payload fails to parse as JSON is
silently skipped by the streaming decoder without aborting or surfacing
an error, so inserting a non-JSON line between two valid frames still
produces the fragments of the valid frames before and after it in order;
but a frame whose payload parses as JSON with an ill-shaped
`choices[0]` aborts the stream with the uncaught dynamic-typing error
instead of being skipped. -/
theorem malformed_frame_policy (parse : String → Option Json) (line : String)
    (rest : List String) :
    (line ≠ "" → pyStartsWith line "data: " = true →
      pyStrip (line.drop 6) ≠ "[DONE]" → parse (pyStrip (line.drop 6)) = none →
      streamDecode parse (line :: rest) = streamDecode parse rest)
    ∧ (∀ chunk e, line ≠ "" → pyStartsWith line "data: " = true →
        pyStrip (line.drop 6) ≠ "[DONE]" → parse (pyStrip (line.drop 6)) = some chunk →
        lineFragment chunk = .error e →
        streamDecode parse (line :: rest) = .err [] e)
    ∧ streamDecode parseAB
        ["data: " ++ payloadA, "data: heartbeat", "data: " ++ payloadB, "data: [DONE]"]
        = .done [.str "a", .str "b"] := by
  refine ⟨?_, ?_, rfl⟩
  · intro hne hsw hdone hparse
    simp only [streamDecode, if_pos (And.intro hne hsw), if_neg hdone, hparse]
  · intro chunk e hne hsw hdone hparse hfrag
    simp only [streamDecode, if_pos (And.intro hne hsw), if_neg hdone, hparse, hfrag]

/-- C5 witness: a lone `data: heartbeat` line whose payload is not JSON
is skipped, leaving the empty stream outcome. -/
theorem malformed_frame_policy_witness :
    streamDecode parseAB ["data: heartbeat"] = streamDecode parseAB [] :=
  (malformed_frame_policy parseAB "data: heartbeat" []).1
    (by decide) (by decide) (by decide) rfl

/-- C5 counterexample: the frame `data: \x7b"choices":[5]\x7d` parses as
JSON, but its `choices[0]` is a number, so `.get("delta", \x7b\x7d)`
raises AttributeError and the stream aborts with that error instead of
skipping the frame and reaching `[DONE]`; the claim that any malformed
individual frame is silently skipped is therefore false on this input. -/
theorem malformed_frame_policy_cex :
    streamDecode parseBad ["data: \x7b\"choices\":[5]\x7d", "data: [DONE]"]
      = .err [] .attributeError
    ∧ streamDecode parseBad ["data: \x7b\"choices\":[5]\x7d", "data: [DONE]"]
      ≠ .done [] :=
  ⟨rfl, fun hcontra => nomatch hcontra⟩

/-- C6 (amended): the blocking decoder returns
`choices[0].message.content` when the choices array is non-empty and the
first choice carries `message.content`; returns the empty string — never
raising — when `choices` is absent or empty; the Scenario B body yields
`"hello"`; and decoding is deterministic (same body, same result).  A
payload whose non-empty `choices[0]` lacks `message.content` raises
instead of degrading to empty content. -/
theorem chat_decode_contract (kvs : List (String × Json)) (data : Json) :
    (kvs.lookup "choices" = none → chatDecode (.obj kvs) = .ok (.str ""))
    ∧ (kvs.lookup "choices" = some (.arr []) → chatDecode (.obj kvs) = .ok (.str ""))
    ∧ (∀ ckvs rest mkvs v, kvs.lookup "choices" = some (.arr (.obj ckvs :: rest)) →
        ckvs.lookup "message" = some (.obj mkvs) → mkvs.lookup "content" = some v →
        chatDecode (.obj kvs) = .ok v)
    ∧ chatDecode
        (.obj [("choices", .arr [.obj [("message", .obj [("content", .str "hello")])]])])
        = .ok (.str "hello")
    ∧ chatDecode data = chatDecode data := by
  refine ⟨?_, ?_, ?_, rfl, rfl⟩
  · intro hl
    simp [chatDecode, pyHasKey, hl]
  · intro hl
    simp [chatDecode, pyHasKey, pyGetItem, pyLen, hl]
  · intro ckvs rest mkvs v hl hm hc
    simp [chatDecode, pyHasKey, pyGetItem, pyLen, pyIndex, hl, hm, hc]

/-- C6 witness: a parseable body with no `choices` key decodes to the
empty string. -/
theorem chat_decode_contract_witness :
    chatDecode (.obj [("error", .str "rate limited")]) = .ok (.str "") :=
  (chat_decode_contract [("error", .str "rate limited")] .null).1 rfl

/-- C6 counterexample: the malformed-but-parseable body
`\x7b"choices":[\x7b\x7d]\x7d` has a non-empty choices array whose first
element lacks `message`, so the decoder raises KeyError rather than
degrading to empty content; the claim that malformed-but-parseable
payloads never raise is false on this input. -/
theorem chat_decode_raises :
    chatDecode (.obj [("choices", .arr [.obj []])]) = .error .keyError
    ∧ chatDecode (.obj [("choices", .arr [.obj []])]) ≠ .ok (.str "") :=
  ⟨rfl, fun hcontra => nomatch hcontra⟩

/-- C7 (amended): `_chat` posts to `/v1/chat/completions` with a
60-second timeout; the body carries `model`, `messages`, `temperature`
and `max_tokens` with per-call overrides merged over client defaults
field-by-field, and no `stream` key at all (streaming simply is not
requested); transport errors propagate, and any 4xx or 5xx status raises
an HTTP error rather than returning a partial result. -/
theorem chat_request_contract (c : ChatConfig) (messages : List Message) (kw : Kwargs)
    (net : Request → Except PyErr HttpResponse) :
    (chatRequest c messages kw).url = c.proxy_url ++ "/v1/chat/completions"
    ∧ (chatRequest c messages kw).timeout = some 60
    ∧ (chatRequest c messages kw).payload.lookup "model"
        = some (.str (kw.model.getD c.model))
    ∧ (chatRequest c messages kw).payload.lookup "messages" = some (messagesJson messages)
    ∧ (chatRequest c messages kw).payload.lookup "temperature"
        = some (.num (kw.temperature.getD c.temperature))
    ∧ (chatRequest c messages kw).payload.lookup "max_tokens"
        = some (.num ((kw.max_tokens.getD c.max_tokens : ℤ) : ℚ))
    ∧ (chatRequest c messages kw).payload.lookup "stream" = none
    ∧ (∀ e, net (chatRequest c messages kw) = .error e →
        vura_chat c messages kw net = .error e)
    ∧ (∀ resp, net (chatRequest c messages kw) = .ok resp →
        400 ≤ resp.status → resp.status < 600 →
        vura_chat c messages kw net = .error (.httpError resp.status)) := by
  refine ⟨rfl, rfl, rfl, rfl, rfl, rfl, rfl, ?_, ?_⟩
  · intro e hnet
    simp only [vura_chat, hnet]
  · intro resp hnet h4 h6
    simp only [vura_chat, hnet, raiseForStatus, if_pos (And.intro h4 h6)]

/-- C7 witness: a connection error propagates, and a 500 status raises
the HTTP error, at the sample configuration. -/
theorem chat_request_contract_witness :
    vura_chat cEx [] kwNone netConnErr = .error .connectionError
    ∧ vura_chat cEx [] kwNone net500 = .error (.httpError 500) :=
  ⟨(chat_request_contract cEx [] kwNone netConnErr).2.2.2.2.2.2.2.1 .connectionError rfl,
   (chat_request_contract cEx [] kwNone net500).2.2.2.2.2.2.2.2
     { status := 500, body := .obj [("detail", .str "boom")] } rfl
     (by decide) (by decide)⟩

/-- C7 counterexample: at a concrete call the posted body has no `stream`
key (so it does not contain `stream:false` as the claim states), and a
304 response — non-2xx — does not raise: the call decodes the body and
returns normally. -/
theorem chat_request_no_stream_key :
    (chatRequest cEx [] kwNone).payload.lookup "stream" = none
    ∧ vura_chat cEx [] kwNone net304 = .ok (.str "") :=
  ⟨rfl, rfl⟩

/-- C8 (amended): `VuraAuditor.audit` posts the content to `/audit` with a
30-second timeout, raises on any 4xx/5xx status and on transport errors,
and otherwise returns the parsed report; `audit_file` propagates
file-access errors unchanged and otherwise delegates to `audit`.  The
`audit_skill` variant in privacyguard.py, however, posts with no timeout
and returns the parsed body of any response without checking the
status. -/
theorem audit_contract (a : AuditorConfig) (net : Request → Except PyErr HttpResponse)
    (fs : String → Except PyErr String) (content path : String) :
    (auditRequest a content).url = a.proxy_url ++ "/audit"
    ∧ (auditRequest a content).payload = [("content", .str content)]
    ∧ (auditRequest a content).timeout = some 30
    ∧ (∀ resp, net (auditRequest a content) = .ok resp →
        400 ≤ resp.status → resp.status < 600 →
        audit a net content = .error (.httpError resp.status))
    ∧ (∀ resp, net (auditRequest a content) = .ok resp →
        ¬(400 ≤ resp.status ∧ resp.status < 600) →
        audit a net content = .ok resp.body)
    ∧ (∀ e, net (auditRequest a content) = .error e → audit a net content = .error e)
    ∧ (∀ e, fs path = .error e → audit_file a net fs path = .error e)
    ∧ (∀ c2, fs path = .ok c2 → audit_file a net fs path = audit a net c2)
    ∧ (audit_skillRequest a.proxy_url content).timeout = none
    ∧ (∀ pu resp, net (audit_skillRequest pu content) = .ok resp →
        audit_skill pu net content = .ok resp.body) := by
  refine ⟨rfl, rfl, rfl, ?_, ?_, ?_, ?_, ?_, rfl, ?_⟩
  · intro resp hnet h4 h6
    simp only [audit, hnet, raiseForStatus, if_pos (And.intro h4 h6)]
  · intro resp hnet hrange
    simp only [audit, hnet, raiseForStatus, if_neg hrange]
  · intro e hnet
    simp only [audit, hnet]
  · intro e hfs
    simp only [audit_file, hfs]
  · intro c2 hfs
    simp only [audit_file, hfs]
  · intro pu resp hnet
    simp only [audit_skill, hnet]

/-- C8 witness: a 500 from `/audit` raises the HTTP error through
`audit`, and a missing file's error propagates unchanged through
`audit_file`. -/
theorem audit_contract_witness :
    audit aEx net500 "skill content" = .error (.httpError 500)
    ∧ audit_file aEx net500 fsMissing "/tmp/skill.md" = .error .fileNotFound :=
  ⟨(audit_contract aEx net500 fsMissing "skill content" "/tmp/skill.md").2.2.2.1
     { status := 500, body := .obj [("detail", .str "boom")] } rfl (by decide) (by decide),
   (audit_contract aEx net500 fsMissing "skill content" "/tmp/skill.md").2.2.2.2.2.2.1
     .fileNotFound rfl⟩

/-- C8 counterexample: `audit_skill` posts with no timeout and, on a 500
response with a JSON body, returns that body instead of raising — so the
claim that the 30-second/raise-on-non-2xx contract holds for all of the
repository's audit entry points, including `audit_skill`, is false. -/
theorem audit_skill_ignores_status :
    audit_skill "http://localhost:8080" net500 "abc"
      = .ok (.obj [("detail", .str "boom")])
    ∧ (audit_skillRequest "http://localhost:8080" "abc").timeout = none :=
  ⟨rfl, rfl⟩
